import Mathlib

/-!
Shallow embedding of the `mpi` C++ wrapper library (LANL cellar-mpi) and
proofs about its specification claims.

MPI opaque handle values (`MPI_Comm`, `MPI_Request`, `MPI_Op`, `MPI_Datatype`)
are modelled as integers; the concrete numeric values of the library-builtin
constants are arbitrary but pairwise distinct, matching their role as opaque
sentinels in the source.  Effectful fragments of the C++ code (aborts, throws,
calls into the underlying MPI C library) are modelled by explicit outcome
types; calls into the underlying library are modelled by oracle function
parameters or by outcome constructors recording the call and its arguments.
-/

namespace mpi

/-- Success return code of the underlying library (`MPI_SUCCESS`). -/
def MPI_SUCCESS : Int := 0

/-- Exit code used by the wrapper on fatal validation failures. -/
def EXIT_FAILURE : Int := 1

def MPI_COMM_NULL : Int := 0
def MPI_COMM_WORLD : Int := 1
def MPI_COMM_SELF : Int := 2

def MPI_REQUEST_NULL : Int := 0

def MPI_OP_NULL : Int := 0
def MPI_MAX : Int := 1
def MPI_MIN : Int := 2
def MPI_SUM : Int := 3
def MPI_PROD : Int := 4
def MPI_LAND : Int := 5
def MPI_BAND : Int := 6
def MPI_LOR : Int := 7
def MPI_BOR : Int := 8
def MPI_LXOR : Int := 9
def MPI_BXOR : Int := 10
def MPI_MAXLOC : Int := 11
def MPI_MINLOC : Int := 12

/-- `std::numeric_limits<int>::max()` on the target platform. -/
def INT_MAX : Nat := 2 ^ 31 - 1

/-- Handle-traits descriptor (handle.hpp users): null sentinel and the
protected-system-handle predicate.  The destroy procedure is modelled by the
`destroyed` log of the operations below, since all destroy procedures of the
source merely forward to the corresponding `MPI_*_free` call. -/
structure HandleTraits where
  null : Int
  is_system_handle : Int → Bool

/-- `CommHandleTraits` from comm.hpp. -/
def CommHandleTraits : HandleTraits :=
  ⟨MPI_COMM_NULL, fun handle => handle == MPI_COMM_WORLD || handle == MPI_COMM_SELF⟩

/-- `RequestHandleTraits` from request.hpp: no request handle is protected. -/
def RequestHandleTraits : HandleTraits :=
  ⟨MPI_REQUEST_NULL, fun _ => false⟩

/-- `OpHandleTraits` from op.hpp: the library-builtin operators are protected. -/
def OpHandleTraits : HandleTraits :=
  ⟨MPI_OP_NULL, fun handle =>
    handle == MPI_MAX || handle == MPI_MIN || handle == MPI_SUM || handle == MPI_PROD ||
    handle == MPI_LAND || handle == MPI_BAND || handle == MPI_LOR ||
    handle == MPI_BOR || handle == MPI_LXOR || handle == MPI_BXOR ||
    handle == MPI_MAXLOC || handle == MPI_MINLOC⟩

namespace UniqueHandle

/-- `UniqueHandle::is_null`: compares the stored handle with the traits null sentinel. -/
def is_null (tr : HandleTraits) (handle_ : Int) : Bool :=
  handle_ == tr.null

/-- `UniqueHandle::operator bool`: mirrors `!is_null()`. -/
def toBool (tr : HandleTraits) (handle_ : Int) : Bool :=
  !(is_null tr handle_)

/-- `UniqueHandle::get_raw`. -/
def get_raw (handle_ : Int) : Int := handle_

/-- `UniqueHandle::into_raw`: `auto handle = null(); swap(handle, handle_); return handle`.
Returns (return value, new stored handle, handles destroyed during the call).
The source body contains no call to the traits destroy procedure, hence the
empty destroy log. -/
def into_raw (tr : HandleTraits) (handle_ : Int) : Int × Int × List Int :=
  (handle_, tr.null, [])

/-- Result of running `UniqueHandle::reset` (the destructor body). -/
structure ResetRun where
  handle : Int
  destroyed : List Int
  system_assert_violated : Bool
deriving DecidableEq

/-- `UniqueHandle::reset`: asserts the handle is not a protected system handle,
then invokes the traits destroy procedure if the handle is non-null (the MPI
free routines null the handle out). -/
def reset (tr : HandleTraits) (handle_ : Int) : ResetRun :=
  if toBool tr handle_ then
    ⟨tr.null, [handle_], tr.is_system_handle handle_⟩
  else
    ⟨handle_, [], tr.is_system_handle handle_⟩

end UniqueHandle

/-! ### Op (op.hpp) -/

namespace Op

/-- Body of `Op::~Op()`: `if (!OpTraits::is_user_defined) into_raw();`.
Returns the stored handle after the destructor body has run. -/
def destructor_body (is_user_defined : Bool) (handle_ : Int) : Int :=
  if !is_user_defined then (UniqueHandle.into_raw OpHandleTraits handle_).2.1 else handle_

/-- Full destruction of an `Op`: the `~Op` body runs first, then the base class
destructor `~UniqueHandle` runs `reset()` on the remaining handle. -/
def destructor (is_user_defined : Bool) (handle_ : Int) : UniqueHandle.ResetRun :=
  UniqueHandle.reset OpHandleTraits (destructor_body is_user_defined handle_)

end Op

/-! ### UniqueRequest (request.hpp) -/

/-- Diagnostic printed by `UniqueRequest::check_null` before terminating. -/
def requestDropDiag : String :=
  "Requests must be completed before they are dropped!"

/-- Outcome of `UniqueRequest::~UniqueRequest()`. -/
inductive ReqDtorOutcome where
  | terminated (diag : String)
  | completed (destroyed : List Int)
deriving DecidableEq

/-- `UniqueRequest::~UniqueRequest()`: runs `check_null()` (prints a diagnostic
and calls `std::exit(EXIT_FAILURE)` when the handle is non-null); when the
handle is null, the base `~UniqueHandle` runs `reset()` afterwards. -/
def UniqueRequest.destructor (handle_ : Int) : ReqDtorOutcome :=
  if !(UniqueHandle.is_null RequestHandleTraits handle_) then
    .terminated requestDropDiag
  else
    .completed (UniqueHandle.reset RequestHandleTraits handle_).destroyed

/-- Outcome of `UniqueRequest::operator=(UniqueRequest&&)`. -/
inductive ReqAssignOutcome where
  | terminated (diag : String)
  | assigned (handle_ : Int) (other : Int) (destroyed : List Int)
deriving DecidableEq

/-- `UniqueRequest::operator=(UniqueRequest&&)`: runs `check_null()` on the
target first; if the target handle is non-null the process terminates.
Otherwise `UniqueHandle::operator=` runs `reset()` and then swaps the two
stored handles. -/
def UniqueRequest.move_assign (handle_ other : Int) : ReqAssignOutcome :=
  if !(UniqueHandle.is_null RequestHandleTraits handle_) then
    .terminated requestDropDiag
  else
    let r := UniqueHandle.reset RequestHandleTraits handle_
    .assigned other r.handle r.destroyed

/-! ### Comm reference wrapper and the Deref capability (comm.hpp, deref.hpp) -/

/-- The non-owning `mpi::Comm` reference wrapper: a plain value holding the raw
`MPI_Comm` identifier. -/
structure Comm where
  handle : Int
deriving DecidableEq

/-- `Comm::from_handle`. -/
def Comm.from_handle (handle : Int) : Comm := ⟨handle⟩

/-- `Comm::get_raw` (inherited from `Handle`). -/
def Comm.get_raw (c : Comm) : Int := c.handle

/-- `trait::Deref<From, To>::deref`: `To::from_handle(get_raw())`.  Modelled as
a state transformer over the owner state `S` so that absence of mutation and of
destroy calls is part of the statement: returns the fresh reference, the owner
state after the call, and the handles destroyed during the call.  `get_raw` is
a const accessor in the source, so the caller passes its pure projection. -/
def trait.Deref.deref {S R : Type} (get_raw : S → Int) (from_handle : Int → R)
    (s : S) : R × S × List Int :=
  (from_handle (get_raw s), s, [])

/-! ### Datatype traits (datatype.hpp) and reduction-operator traits (op.hpp) -/

/-- The C++ value types for which `DatatypeTraits` is specialized. -/
inductive CppType where
  | bool
  | char
  | int8_t
  | int16_t
  | int32_t
  | int64_t
  | uint8_t
  | uint16_t
  | uint32_t
  | uint64_t
  | float
  | double
deriving DecidableEq, Fintype

/-- One `DatatypeTraits<T>` record: classification flags of the value type. -/
structure DatatypeTraitsRecord where
  is_datatype : Bool
  is_c_integer : Bool
  is_floating_point : Bool
  is_logical : Bool
deriving DecidableEq

/-- The `DatatypeTraits` specializations of datatype.hpp. -/
def DatatypeTraits : CppType → DatatypeTraitsRecord
  | .bool => ⟨true, false, false, true⟩
  | .char => ⟨true, false, false, false⟩
  | .int8_t => ⟨true, true, false, false⟩
  | .int16_t => ⟨true, true, false, false⟩
  | .int32_t => ⟨true, true, false, false⟩
  | .int64_t => ⟨true, true, false, false⟩
  | .uint8_t => ⟨true, true, false, false⟩
  | .uint16_t => ⟨true, true, false, false⟩
  | .uint32_t => ⟨true, true, false, false⟩
  | .uint64_t => ⟨true, true, false, false⟩
  | .float => ⟨true, false, true, false⟩
  | .double => ⟨true, false, true, false⟩

/-- `comparison_op_traits::is_applicable<T>` from op.hpp. -/
def comparison_op_traits.is_applicable (t : CppType) : Bool :=
  (DatatypeTraits t).is_c_integer || (DatatypeTraits t).is_floating_point

/-- `accumulate_op_traits::is_applicable<T>` from op.hpp. -/
def accumulate_op_traits.is_applicable (t : CppType) : Bool :=
  (DatatypeTraits t).is_c_integer || (DatatypeTraits t).is_floating_point

/-- `logical_op_traits::is_applicable<T>` from op.hpp. -/
def logical_op_traits.is_applicable (t : CppType) : Bool :=
  (DatatypeTraits t).is_c_integer || (DatatypeTraits t).is_logical

/-- `bitwise_op_traits::is_applicable<T>` from op.hpp. -/
def bitwise_op_traits.is_applicable (t : CppType) : Bool :=
  (DatatypeTraits t).is_c_integer

/-! ### Exception and check_result (exception.hpp) -/

/-- `mpi::Exception`: the stored error code and the `what()` message. -/
structure Exception where
  errorcode : Int
  what : String
deriving DecidableEq

/-- Outcome of the `Exception` constructor, which calls the error-string
facility (`MPI_Error_string`) and aborts on the world communicator when that
call itself fails. -/
inductive ExceptionCtorResult where
  | ok (e : Exception)
  | aborted (errorcode : Int)
deriving DecidableEq

/-- `Exception::Exception(int)`: fetches the message from the error-string
facility (modelled by `error_string`, returning the facility return code and
the message of `result_length` characters) at construction. -/
def Exception.construct (error_string : Int → Int × String) (errorcode : Int) :
    ExceptionCtorResult :=
  let r := error_string errorcode
  if MPI_SUCCESS ≠ r.1 then .aborted EXIT_FAILURE
  else .ok ⟨errorcode, r.2⟩

/-- Observable outcome of `check_result`. -/
inductive CheckResultOutcome where
  | ok
  | thrown (e : Exception)
  | aborted (errorcode : Int)
deriving DecidableEq

/-- `check_result(int)`: `if (MPI_SUCCESS != errorcode) throw Exception(errorcode);`. -/
def check_result (error_string : Int → Int × String) (errorcode : Int) :
    CheckResultOutcome :=
  if MPI_SUCCESS ≠ errorcode then
    match Exception.construct error_string errorcode with
    | .ok e => .thrown e
    | .aborted c => .aborted c
  else .ok

/-! ### DynBuffer and the gather collectives (buffer.hpp, comm.hpp) -/

/-- `mpi::DynBuffer`: an element count (already an `int`) and a datatype tag.
The data pointer is irrelevant to the claims and omitted. -/
structure DynBuffer where
  count : Int
  datatype : Int
deriving DecidableEq

/-- `DynBuffer::size_int`. -/
def DynBuffer.size_int (b : DynBuffer) : Int := b.count

/-- Observable outcome of `CommImpl::gather` (DynBuffer overload). -/
inductive GatherOutcome where
  | abort (rank : Int) (errorcode : Int)
  | empty_optional_dereferenced
  | mpi_gather (send : DynBuffer) (recvtype : Int) (root : Int)
deriving DecidableEq

/-- Evaluation of the `MPI_Gather(...)` argument list at the end of
`CommImpl::gather`: the argument `recv->datatype()` dereferences the optional
receive buffer with no presence check, which on an empty optional is undefined
behaviour (modelled by the `empty_optional_dereferenced` outcome). -/
def gather_call (send : DynBuffer) (recv : Option DynBuffer) (root : Int) :
    GatherOutcome :=
  match recv with
  | none => .empty_optional_dereferenced
  | some r => .mpi_gather send r.datatype root

/-- `CommImpl::gather(root, DynBuffer send, optional<DynBuffer> recv)`:
`rank` and `size` are the results of the `MPI_Comm_rank` / `MPI_Comm_size`
queries on this communicator. -/
def CommImpl.gather (rank size : Int) (root : Int) (send : DynBuffer)
    (recv : Option DynBuffer) : GatherOutcome :=
  if root = rank then
    match recv with
    | none => .abort rank EXIT_FAILURE
    | some r =>
      if r.size_int < send.size_int * size then .abort rank EXIT_FAILURE
      else gather_call send (some r) root
  else gather_call send recv root

/-- `CommImpl::gather_into_root(root, span send, span recv)`: aborts from any
non-root rank, then forwards to `gather` with the receive buffer present. -/
def CommImpl.gather_into_root (rank size : Int) (root : Int)
    (send recv : DynBuffer) : GatherOutcome :=
  if root ≠ rank then .abort rank EXIT_FAILURE
  else CommImpl.gather rank size root send (some recv)

/-! ### The reduce collectives (comm.hpp) -/

/-- Observable outcome of `CommImpl::reduce`. -/
inductive ReduceOutcome where
  | abort (rank : Int) (errorcode : Int)
  | throw_out_of_range
  | mpi_reduce (send_count : Nat) (root : Int)
deriving DecidableEq

/-- Tail of `CommImpl::reduce` after the root-side validation: the
`send_count > INT_MAX` range check, then the `MPI_Reduce` call. -/
def reduce_call (send_count : Nat) (root : Int) : ReduceOutcome :=
  if INT_MAX < send_count then .throw_out_of_range
  else .mpi_reduce send_count root

/-- `CommImpl::reduce(op, root, send, send_count, recv, recv_count)`.
`recv_nonnull` models whether the `recv` pointer argument is non-null
(it defaults to `nullptr`); `send_count` and `recv_count` are `size_t`.
Note the nested `if (!recv)` inside the `recv_count < send_count` branch,
reproduced exactly from the source: it can never fire there because `!recv`
already aborted above. -/
def CommImpl.reduce (rank : Int) (root : Int) (send_count : Nat)
    (recv_nonnull : Bool) (recv_count : Nat) : ReduceOutcome :=
  if root = rank then
    if !recv_nonnull then .abort rank EXIT_FAILURE
    else if recv_count < send_count then
      if !recv_nonnull then .abort rank EXIT_FAILURE
      else reduce_call send_count root
    else reduce_call send_count root
  else reduce_call send_count root

/-- `CommImpl::reduce_into_root(op, root, send, send_count, recv, recv_count)`:
aborts from any non-root rank, then forwards to `reduce`. -/
def CommImpl.reduce_into_root (rank : Int) (root : Int) (send_count : Nat)
    (recv_nonnull : Bool) (recv_count : Nat) : ReduceOutcome :=
  if root ≠ rank then .abort rank EXIT_FAILURE
  else CommImpl.reduce rank root send_count recv_nonnull recv_count

/-! ### Batch completion operations (mpi.hpp umbrella header) -/

/-- The local, recoverable C++ exceptions thrown by the batch operations.
`std::out_of_range` publicly derives from `std::logic_error`. -/
inductive CppError where
  | out_of_range (msg : String)
  | logic_error (msg : String)
deriving DecidableEq

/-- Whether a thrown object is (a subclass of) `std::logic_error`; in the
standard library `std::out_of_range` is. -/
def CppError.is_logic_error : CppError → Bool
  | .out_of_range _ => true
  | .logic_error _ => true

/-- Result of `mpi::wait_all(requests, statuses)`: either a locally thrown
exception or the normal return, in each case with the final request list
(requests are reinterpreted in place as raw `MPI_Request` values). -/
inductive WaitAllResult where
  | thrown (e : CppError) (requests : List Int)
  | ok (requests : List Int)
deriving DecidableEq

/-- `mpi::wait_all(span<UniqueRequest>, span<Status>)`.  `mpi_waitall` is the
oracle for the underlying `MPI_Waitall` call, transforming the raw request
array in place. -/
def wait_all (requests : List Int) (statuses_size : Nat)
    (mpi_waitall : List Int → List Int) : WaitAllResult :=
  if INT_MAX < requests.length then
    .thrown (.out_of_range "requests array is too large") requests
  else if statuses_size < requests.length then
    .thrown (.logic_error "statuses array must be large enough to hold a status for each request")
      requests
  else .ok (mpi_waitall requests)

/-- Result of `mpi::wait_some`: a thrown exception or the returned completion
count, with the final request array and the final indices buffer contents. -/
inductive WaitSomeResult where
  | thrown (e : CppError) (requests : List Int) (indices : List Int)
  | ok (num_completed : Nat) (requests : List Int) (indices : List Int)
deriving DecidableEq

/-- Effect of `MPI_Waitsome` on the caller-supplied indices buffer: the first
`completed.length` slots receive the completed indices, the rest are left as
they were. -/
def mpi_waitsome_write (indices completed : List Int) : List Int :=
  completed ++ indices.drop completed.length

/-- Tail of `mpi::wait_some` after validation: the `MPI_Waitsome` call (oracle
`mpi_waitsome`, returning the new raw request array and either the list of
completed indices or `none` for an `MPI_UNDEFINED` completion count) and the
`MPI_UNDEFINED` check after it. -/
def wait_some_call (requests indices : List Int)
    (mpi_waitsome : List Int → List Int × Option (List Int)) : WaitSomeResult :=
  let r := mpi_waitsome requests
  match r.2 with
  | none =>
    .thrown (.logic_error "wait_some should only be called when there are still completed requests")
      r.1 indices
  | some completed => .ok completed.length r.1 (mpi_waitsome_write indices completed)

/-- `mpi::wait_some(span<UniqueRequest>, span<int>, optional<span<Status>>)`.
`statuses_size` is the size of the optional statuses span. -/
def wait_some (requests indices : List Int) (statuses_size : Option Nat)
    (mpi_waitsome : List Int → List Int × Option (List Int)) : WaitSomeResult :=
  if INT_MAX < requests.length then
    .thrown (.out_of_range "requests array is too large") requests indices
  else if indices.length < requests.length then
    .thrown (.logic_error "indices array must be large enough to hold an index for each request")
      requests indices
  else
    match statuses_size with
    | some n =>
      if n < requests.length then
        .thrown
          (.logic_error "statuses array must be large enough to hold a status for each request")
          requests indices
      else wait_some_call requests indices mpi_waitsome
    | none => wait_some_call requests indices mpi_waitsome

/-- Result of `mpi::wait_some_into`: final request array and final contents of
the caller's indices vector. -/
inductive WaitSomeIntoResult where
  | thrown (e : CppError) (requests : List Int) (indices : List Int)
  | ok (requests : List Int) (indices : List Int)
deriving DecidableEq

/-- `mpi::wait_some_into(span<UniqueRequest>, vector<int>&)`: resizes the
vector by `requests.size()` value-initialized elements, calls `wait_some` on
the subspan past the original size, then shrinks the vector to the original
size plus the completion count. -/
def wait_some_into (requests indices : List Int)
    (mpi_waitsome : List Int → List Int × Option (List Int)) : WaitSomeIntoResult :=
  let original_indices_size := indices.length
  let resized := indices ++ List.replicate requests.length 0
  match wait_some requests (resized.drop original_indices_size) none mpi_waitsome with
  | .thrown e reqs sub =>
    .thrown e reqs (resized.take original_indices_size ++ sub)
  | .ok num_completed reqs sub =>
    .ok reqs
      ((resized.take original_indices_size ++ sub).take (original_indices_size + num_completed))

/-! ## Claims -/

/-- C1: the spec claims both root-only collectives fatally abort on a non-root
caller and on an undersized root-side receive buffer.  The non-root aborts and
the gather-side undersized abort do hold (last three conjuncts), but in
`CommImpl::reduce` the undersized-receive abort is dead code — it sits under a
second `if (!recv)` test that has already aborted — so a root call of
`reduce_into_root` with `recv_count < send_count` and a non-null receive
buffer proceeds to the normal `MPI_Reduce` call instead of aborting (first
conjunct: rank 0, root 0, send_count 2, recv_count 1). -/
theorem C1_reduce_into_root_undersized_recv_does_not_abort :
    CommImpl.reduce_into_root 0 0 2 true 1 = ReduceOutcome.mpi_reduce 2 0 ∧
    CommImpl.reduce_into_root 1 0 2 true 2 = ReduceOutcome.abort 1 EXIT_FAILURE ∧
    CommImpl.gather_into_root 1 4 0 ⟨2, 100⟩ ⟨8, 100⟩ = GatherOutcome.abort 1 EXIT_FAILURE ∧
    CommImpl.gather 0 4 0 ⟨2, 100⟩ (some ⟨7, 100⟩) = GatherOutcome.abort 0 EXIT_FAILURE := by
  decide

/-- C2: the claim says every access to the optional receive buffer of
`Comm::gather` is guarded by a presence check before the underlying gather
call is issued.  It is not: on a non-root rank calling with the receive buffer
absent (the documented calling pattern, `recv` defaults to `nullopt`),
building the `MPI_Gather` argument list evaluates `recv->datatype()` on the
empty optional (first conjunct).  At the root the access is indeed guarded:
an absent buffer aborts first (second conjunct). -/
theorem C2_gather_nonroot_absent_recv_is_dereferenced :
    CommImpl.gather 1 4 0 ⟨3, 100⟩ none = GatherOutcome.empty_optional_dereferenced ∧
    CommImpl.gather 0 4 0 ⟨3, 100⟩ none = GatherOutcome.abort 0 EXIT_FAILURE := by
  decide

/-- C3: a `UniqueRequest` whose stored handle is non-null terminates the
process with a diagnostic both from its destructor and from move-assignment
onto it; one whose handle is null destructs cleanly without invoking the
destroy procedure. -/
theorem C3_unique_request_drop_policy (handle_ other : Int) :
    (handle_ ≠ MPI_REQUEST_NULL →
      UniqueRequest.destructor handle_ = .terminated requestDropDiag ∧
      UniqueRequest.move_assign handle_ other = .terminated requestDropDiag) ∧
    (handle_ = MPI_REQUEST_NULL →
      UniqueRequest.destructor handle_ = .completed []) := by
  constructor
  · intro h
    have hnull : UniqueHandle.is_null RequestHandleTraits handle_ = false := by
      simp [UniqueHandle.is_null, RequestHandleTraits, h]
    exact ⟨by simp [UniqueRequest.destructor, hnull],
      by simp [UniqueRequest.move_assign, hnull]⟩
  · intro h
    subst h
    decide

/-- Witness for C3 at the concrete handles 5 (pending) and the null handle. -/
theorem C3_unique_request_drop_policy_witness :
    (UniqueRequest.destructor 5 = .terminated requestDropDiag ∧
      UniqueRequest.move_assign 5 9 = .terminated requestDropDiag) ∧
    UniqueRequest.destructor MPI_REQUEST_NULL = .completed [] :=
  ⟨(C3_unique_request_drop_policy 5 9).1 (by decide),
   (C3_unique_request_drop_policy MPI_REQUEST_NULL 0).2 rfl⟩

/-- C4: `wait_all` called with an undersized statuses span, and `wait_some`
called with an undersized indices span or an undersized supplied statuses
span, throw a `std::logic_error` before the underlying batch-wait call is
invoked, leaving the requests unmodified.  (On the oversized-request-span path
the thrown `std::out_of_range` is a subclass of `std::logic_error`.) -/
theorem C4_undersized_buffers_throw_logic_error
    (requests indices : List Int) (statuses_size : Nat) (opt_statuses_size : Option Nat)
    (mpi_waitall : List Int → List Int)
    (mpi_waitsome : List Int → List Int × Option (List Int)) :
    (statuses_size < requests.length →
      ∃ e, wait_all requests statuses_size mpi_waitall = .thrown e requests ∧
        e.is_logic_error = true) ∧
    (indices.length < requests.length →
      ∃ e, wait_some requests indices opt_statuses_size mpi_waitsome =
        .thrown e requests indices ∧ e.is_logic_error = true) ∧
    (∀ n, opt_statuses_size = some n → n < requests.length →
      ∃ e, wait_some requests indices opt_statuses_size mpi_waitsome =
        .thrown e requests indices ∧ e.is_logic_error = true) := by
  refine ⟨?_, ?_, ?_⟩
  · intro h
    by_cases hbig : INT_MAX < requests.length
    · exact ⟨CppError.out_of_range "requests array is too large",
        by simp [wait_all, hbig], rfl⟩
    · exact ⟨CppError.logic_error
        "statuses array must be large enough to hold a status for each request",
        by simp [wait_all, hbig, h], rfl⟩
  · intro h
    by_cases hbig : INT_MAX < requests.length
    · exact ⟨CppError.out_of_range "requests array is too large",
        by simp [wait_some, hbig], rfl⟩
    · exact ⟨CppError.logic_error
        "indices array must be large enough to hold an index for each request",
        by simp [wait_some, hbig, h], rfl⟩
  · intro n hn hlt
    subst hn
    by_cases hbig : INT_MAX < requests.length
    · exact ⟨CppError.out_of_range "requests array is too large",
        by simp [wait_some, hbig], rfl⟩
    · by_cases hidx : indices.length < requests.length
      · exact ⟨CppError.logic_error
          "indices array must be large enough to hold an index for each request",
          by simp [wait_some, hbig, hidx], rfl⟩
      · exact ⟨CppError.logic_error
          "statuses array must be large enough to hold a status for each request",
          by simp [wait_some, hbig, hidx, hlt], rfl⟩

/-- Witness for C4 at two pending requests with one-element buffers. -/
theorem C4_undersized_buffers_throw_logic_error_witness :
    (∃ e, wait_all [3, 4] 1 id = .thrown e [3, 4] ∧ e.is_logic_error = true) ∧
    (∃ e, wait_some [3, 4] [0] (some 1) (fun l => (l, some [])) =
      .thrown e [3, 4] [0] ∧ e.is_logic_error = true) ∧
    (∃ e, wait_some [3, 4] [0, 0] (some 1) (fun l => (l, some [])) =
      .thrown e [3, 4] [0, 0] ∧ e.is_logic_error = true) :=
  ⟨(C4_undersized_buffers_throw_logic_error [3, 4] [0] 1 (some 1) id
      (fun l => (l, some []))).1 (by decide),
   (C4_undersized_buffers_throw_logic_error [3, 4] [0] 1 (some 1) id
      (fun l => (l, some []))).2.1 (by decide),
   (C4_undersized_buffers_throw_logic_error [3, 4] [0, 0] 1 (some 1) id
      (fun l => (l, some []))).2.2 1 rfl (by decide)⟩

/-- Taking `indices.length + completed.length` elements of
`indices ++ (completed ++ rest)` yields `indices ++ completed`. -/
theorem take_append_cancel (indices completed rest : List Int) :
    (indices ++ (completed ++ rest)).take (indices.length + completed.length) =
      indices ++ completed := by
  rw [List.take_append, List.take_left]

/-- C5: on the success path, `wait_some_into` leaves the first `k` elements of
the caller's indices vector unchanged and appends exactly the completed
indices reported by the underlying `MPI_Waitsome` call, so the final length is
`k` plus the completion count. -/
theorem C5_wait_some_into_appends
    (requests indices reqs completed : List Int)
    (mpi_waitsome : List Int → List Int × Option (List Int))
    (horacle : mpi_waitsome requests = (reqs, some completed))
    (hcap : requests.length ≤ INT_MAX) :
    wait_some_into requests indices mpi_waitsome =
      .ok reqs (indices ++ completed) ∧
    (indices ++ completed).take indices.length = indices ∧
    (indices ++ completed).drop indices.length = completed ∧
    (indices ++ completed).length = indices.length + completed.length := by
  have hbig : ¬ INT_MAX < requests.length := not_lt.mpr hcap
  have hrep : ¬ (List.replicate requests.length (0 : Int)).length < requests.length := by
    simp
  refine ⟨?_, List.take_left _ _, List.drop_left _ _, List.length_append _ _⟩
  simp only [wait_some_into, List.drop_left, List.take_left, wait_some, if_neg hbig,
    if_neg hrep, wait_some_call, horacle, mpi_waitsome_write]
  rw [take_append_cancel]

/-- Witness for C5: two requests, one prior index, the oracle completing
request 0. -/
theorem C5_wait_some_into_appends_witness :
    wait_some_into [10, 20] [7] (fun _ => ([0, 20], some [0])) =
      WaitSomeIntoResult.ok [0, 20] [7, 0] ∧
    ([7, 0] : List Int).take 1 = [7] ∧
    ([7, 0] : List Int).drop 1 = [0] ∧
    ([7, 0] : List Int).length = 1 + 1 :=
  C5_wait_some_into_appends [10, 20] [7] [0, 20] [0] (fun _ => ([0, 20], some [0]))
    rfl (by decide)

/-- C6: destroying an `Op` whose traits are not user-defined never invokes the
destroy procedure (`MPI_Op_free`): the `~Op` body releases the stored handle
via `into_raw`, so the base-class teardown runs on a null handle and destroys
nothing. -/
theorem C6_op_destructor_never_frees_builtin (handle_ : Int) :
    Op.destructor_body false handle_ = MPI_OP_NULL ∧
    (Op.destructor false handle_).destroyed = [] := by
  exact ⟨rfl, rfl⟩

/-- C7: `into_raw` on an owning wrapper holding raw identifier `h` returns
`h`, leaves the wrapper null (`is_null` true, boolean conversion false),
performs no destroy call, and the wrapper's subsequent destructor body
destroys nothing. -/
theorem C7_into_raw_releases_without_destroy (tr : HandleTraits) (handle_ : Int) :
    (UniqueHandle.into_raw tr handle_).1 = handle_ ∧
    UniqueHandle.is_null tr (UniqueHandle.into_raw tr handle_).2.1 = true ∧
    UniqueHandle.toBool tr (UniqueHandle.into_raw tr handle_).2.1 = false ∧
    (UniqueHandle.into_raw tr handle_).2.2 = [] ∧
    (UniqueHandle.reset tr (UniqueHandle.into_raw tr handle_).2.1).destroyed = [] := by
  refine ⟨rfl, ?_, ?_, rfl, ?_⟩ <;>
    simp [UniqueHandle.into_raw, UniqueHandle.is_null, UniqueHandle.toBool,
      UniqueHandle.reset]

/-- C8: a bitwise reduction operator is applicable to a value type exactly
when the type is integer-classified; a logical operator exactly when the type
is integer- or logical-classified; in particular `bool` is accepted by logical
operators and rejected by bitwise operators. -/
theorem C8_op_applicability_matches_classification :
    (∀ t : CppType,
      (bitwise_op_traits.is_applicable t = true ↔
        (DatatypeTraits t).is_c_integer = true) ∧
      (logical_op_traits.is_applicable t = true ↔
        ((DatatypeTraits t).is_c_integer = true ∨ (DatatypeTraits t).is_logical = true))) ∧
    logical_op_traits.is_applicable CppType.bool = true ∧
    bitwise_op_traits.is_applicable CppType.bool = false ∧
    (DatatypeTraits CppType.bool).is_logical = true ∧
    (DatatypeTraits CppType.bool).is_c_integer = false := by
  decide

/-- C9: `deref()` on any owner-like wrapper for the `Comm` reference kind
produces a reference whose raw identifier equals the owner's `get_raw()`,
leaves the owner unchanged, destroys nothing, and repeated derefs yield
references to the same identifier. -/
theorem C9_deref_aliases_without_transfer {S : Type} (get_raw : S → Int) (w : S) :
    (trait.Deref.deref get_raw Comm.from_handle w).1.handle = get_raw w ∧
    (trait.Deref.deref get_raw Comm.from_handle w).1.get_raw = get_raw w ∧
    (trait.Deref.deref get_raw Comm.from_handle w).2.1 = w ∧
    (trait.Deref.deref get_raw Comm.from_handle w).2.2 = [] ∧
    (trait.Deref.deref get_raw Comm.from_handle
        (trait.Deref.deref get_raw Comm.from_handle w).2.1).1 =
      (trait.Deref.deref get_raw Comm.from_handle w).1 :=
  ⟨rfl, rfl, rfl, rfl, rfl⟩

/-- C10: `check_result` returns normally exactly when the code is
`MPI_SUCCESS`; otherwise (provided the error-string facility itself succeeds)
it throws an `Exception` carrying that code and the message fetched from the
facility at construction time. -/
theorem C10_check_result_gate (error_string : Int → Int × String) (code : Int) :
    (check_result error_string code = .ok ↔ code = MPI_SUCCESS) ∧
    (code ≠ MPI_SUCCESS → (error_string code).1 = MPI_SUCCESS →
      check_result error_string code =
        .thrown ⟨code, (error_string code).2⟩) := by
  constructor
  · by_cases hc : code = MPI_SUCCESS
    · subst hc
      simp [check_result]
    · have hne : MPI_SUCCESS ≠ code := fun h => hc h.symm
      simp only [check_result, if_pos hne]
      constructor
      · intro h
        exfalso
        cases hcon : Exception.construct error_string code <;> simp [hcon] at h
      · intro h
        exact absurd h.symm hne
  · intro hne hsucc
    have hne2 : MPI_SUCCESS ≠ code := fun h => hne h.symm
    simp only [check_result, if_pos hne2, Exception.construct]
    simp [hsucc]

/-- Witness for C10: success code 0 returns normally; failing code 3 with a
successful error-string fetch throws the exception carrying code and message. -/
theorem C10_check_result_gate_witness :
    (check_result (fun _ => (0, "x")) 0 = .ok ↔ (0 : Int) = MPI_SUCCESS) ∧
    check_result (fun _ => (0, "boom")) 3 = .thrown ⟨3, "boom"⟩ :=
  ⟨(C10_check_result_gate (fun _ => (0, "x")) 0).1,
   (C10_check_result_gate (fun _ => (0, "boom")) 3).2 (by decide) rfl⟩

end mpi
